import Mathlib

/-!
Verification of the document layout engine of `streamlit_app.py`.

The core under study is the function `generate_pdf(template, color_name,
details, content)` (defined twice in the source file: lines 32-67 and lines
155-193).  We embed it as a pure Lean function that produces the trace of
drawing operations issued to the PDF library, together with the caller-side
`full_letter` assembly (line 107) that embeds the date stamp.

Modelling decisions, each tied to the source:
* The Python dict `details` is modelled by the record `Details`, holding the
  keys the renderer reads (`name`, `email`, `phone`, `address`) plus the
  `linkedin` key discussed by the data model; `dict.get(k)` of a missing key
  is `none`, and interpolating `None` into an f-string yields the string
  "None" (`fmtOpt`).
* The PDF library (`fpdf2`) is modelled as a state machine `Pdf`: colour,
  font and position setters mutate state only; drawing calls (`rect`,
  `ellipse`, `line`, `cell`, `multi_cell`) append an operation stamped with
  the effective state (position, font, colours) to the trace, which is what
  the produced content stream records.  `set_text_color(r,g,b)` and
  `set_fill_color(r,g,b)` store a grayscale colour when (r,g,b) = (0,0,0)
  and an RGB colour otherwise, mirroring the library's DeviceGray/DeviceRGB
  split; the constructor's defaults are black (gray 0) for both.
* Cursor movement performed by `cell`/`multi_cell` after drawing is not
  modelled: every drawing call in the source is immediately preceded by an
  explicit `set_xy`, so the post-draw cursor is never observable.
* Python's `"Template 1" in template` substring test is `strContains`;
  `name.upper()` is `pyUpper` (faithful on the ASCII names at hand);
  `datetime.now().strftime("%B %d, %Y")` is `strftimeBdY` applied to an
  explicit date, since the current date is ambient input.
-/

/-- RGB or grayscale colour as the PDF library stores it (component values
kept on the 0-255 scale; the library divides by 255 injectively). -/
inductive PdfColor where
  | gray : Nat → PdfColor
  | rgb : Nat → Nat → Nat → PdfColor
deriving DecidableEq

/-- Current font: family, style string ("B" for bold, "" for regular), size. -/
structure Font where
  family : String
  style : String
  size : Nat
deriving DecidableEq

/-- One operation of the produced document trace.  Drawing operations carry
the effective state at the moment of the call. -/
inductive DrawOp where
  | addPage : DrawOp
  | setAutoPageBreak : Bool → DrawOp
  | rect : Int → Int → Int → Int → String → PdfColor → DrawOp
  | ellipse : Int → Int → Int → Int → String → PdfColor → DrawOp
  | line : Int → Int → Int → Int → DrawOp
  | cell : Int → Int → Int → Int → String → Font → PdfColor → Nat → String → DrawOp
  | multiCell : Int → Int → Int → Int → String → Font → PdfColor → DrawOp
deriving DecidableEq

/-- The PDF engine state: current fill colour, text colour, font, cursor
position, auto-page-break flag, and the trace of operations so far. -/
structure Pdf where
  fillColor : PdfColor
  textColor : PdfColor
  font : Font
  x : Int
  y : Int
  autoBreak : Bool
  ops : List DrawOp

/-- `FPDF(unit="mm", format="A4")`: fresh engine, black colours, no page yet. -/
def Pdf.init : Pdf :=
  { fillColor := PdfColor.gray 0, textColor := PdfColor.gray 0,
    font := { family := "", style := "", size := 12 },
    x := 0, y := 0, autoBreak := true, ops := [] }

def Pdf.addPage (p : Pdf) : Pdf :=
  { p with ops := p.ops ++ [DrawOp.addPage] }

def Pdf.setAutoPageBreak (p : Pdf) (auto : Bool) : Pdf :=
  { p with autoBreak := auto, ops := p.ops ++ [DrawOp.setAutoPageBreak auto] }

/-- `set_fill_color(r, g, b)`: black is stored as grayscale, mirroring the
library; state change only, nothing emitted until a drawing call. -/
def Pdf.setFillColor (p : Pdf) (r g b : Nat) : Pdf :=
  { p with fillColor := if r == 0 && g == 0 && b == 0 then PdfColor.gray 0 else PdfColor.rgb r g b }

/-- `set_text_color(r, g, b)`: same convention as `set_fill_color`. -/
def Pdf.setTextColor (p : Pdf) (r g b : Nat) : Pdf :=
  { p with textColor := if r == 0 && g == 0 && b == 0 then PdfColor.gray 0 else PdfColor.rgb r g b }

def Pdf.setFont (p : Pdf) (family style : String) (size : Nat) : Pdf :=
  { p with font := { family := family, style := style, size := size } }

def Pdf.setXY (p : Pdf) (x y : Int) : Pdf :=
  { p with x := x, y := y }

def Pdf.rect (p : Pdf) (x y w h : Int) (style : String) : Pdf :=
  { p with ops := p.ops ++ [DrawOp.rect x y w h style p.fillColor] }

def Pdf.ellipse (p : Pdf) (x y w h : Int) (style : String) : Pdf :=
  { p with ops := p.ops ++ [DrawOp.ellipse x y w h style p.fillColor] }

def Pdf.line (p : Pdf) (x1 y1 x2 y2 : Int) : Pdf :=
  { p with ops := p.ops ++ [DrawOp.line x1 y1 x2 y2] }

def Pdf.cell (p : Pdf) (w h : Int) (txt : String) (ln : Nat) (align : String) : Pdf :=
  { p with ops := p.ops ++ [DrawOp.cell p.x p.y w h txt p.font p.textColor ln align] }

def Pdf.multiCell (p : Pdf) (w h : Int) (txt : String) : Pdf :=
  { p with ops := p.ops ++ [DrawOp.multiCell p.x p.y w h txt p.font p.textColor] }

/-- Boolean test: the first list is an initial segment of the second. -/
def listPref : List Char → List Char → Bool
  | [], _ => true
  | _ :: _, [] => false
  | a :: as, b :: bs => a == b && listPref as bs

/-- Boolean test: the first list occurs contiguously inside the second. -/
def listSub (needle : List Char) : List Char → Bool
  | [] => listPref needle []
  | c :: t => listPref needle (c :: t) || listSub needle (t)

/-- Python's `needle in hay` substring test on strings. -/
def strContains (hay needle : String) : Bool :=
  listSub needle.data hay.data

/-- The `colors` dict literal (source lines 33-36 and 156-159). -/
def colors (color_name : String) : Option (Nat × Nat × Nat) :=
  if color_name = "Teal" then some (52, 165, 173)
  else if color_name = "Forest Green" then some (34, 139, 34)
  else if color_name = "Navy Blue" then some (0, 51, 102)
  else if color_name = "Burgundy" then some (128, 0, 32)
  else if color_name = "Charcoal" then some (54, 69, 79)
  else none

/-- `colors.get(color_name, (52, 165, 173))` (source lines 37 and 160). -/
def resolveColor (color_name : String) : Nat × Nat × Nat :=
  (colors color_name).getD (52, 165, 173)

/-- Interpolation of a `dict.get` result into a Python f-string: a missing
key gives `None`, which prints as the four characters "None". -/
def fmtOpt : Option String → String
  | none => "None"
  | some s => s

/-- The `details` dict restricted to the keys the renderer and the data
model mention; any key may be absent. -/
structure Details where
  name : Option String
  email : Option String
  phone : Option String
  address : Option String
  linkedin : Option String
deriving DecidableEq

/-- Python's `str.upper()` on the ASCII range: uppercase every character. -/
def pyUpper (s : String) : String :=
  String.mk (s.data.map Char.toUpper)

/-- First definition of `generate_pdf` (source lines 32-67), translated
call for call.  The result is the trace of operations of the produced
document. -/
def generate_pdf (template color_name : String) (details : Details) (content : String) : List DrawOp :=
  let rgb := resolveColor color_name
  let r := rgb.1
  let g := rgb.2.1
  let b := rgb.2.2
  let pdf := Pdf.init
  let pdf := pdf.addPage
  let pdf := pdf.setAutoPageBreak false
  let name := details.name.getD "Name"
  let pdf :=
    if strContains template "Template 1" then
      let pdf := pdf.setFillColor r g b
      let pdf := pdf.rect 10 0 60 15 "F"
      let pdf := (pdf.setXY 10 20).setFont "helvetica" "B" 26
      let pdf := ((pdf.setTextColor 0 0 0).cell 60 15 (pyUpper name) 1 "")
      let pdf := pdf.rect 10 38 60 259 "F"
      let pdf := (pdf.setXY 15 45).setTextColor 255 255 255
      let pdf := (pdf.setFont "helvetica" "B" 12).cell 50 8 "Personal details" 1 ""
      let pdf := pdf.line 15 53 65 53
      let pdf := pdf.setFont "helvetica" "" 9
      let pdf := (pdf.setXY 15 60).multiCell 45 5
        ("Email:\n" ++ fmtOpt details.email ++ "\n\nPhone:\n" ++ fmtOpt details.phone
          ++ "\n\nAddress:\n" ++ fmtOpt details.address)
      let pdf := ((pdf.setXY 80 40).setTextColor 0 0 0).multiCell 115 5 content
      pdf
    else
      let pdf := (pdf.setFillColor 242 242 242).rect 0 0 75 297 "F"
      let pdf := (pdf.setFillColor r g b).rect 0 0 75 25 "F"
      let pdf := pdf.ellipse (-10) 10 95 30 "F"
      let pdf := (((pdf.setXY 5 12).setFont "helvetica" "B" 18).setTextColor 255 255 255).cell 65 10 name 0 "C"
      let pdf := (((pdf.setXY 10 50).setTextColor r g b).setFont "helvetica" "B" 14).cell 55 8 "Contact Info" 1 ""
      let pdf := ((pdf.setTextColor 0 0 0).setFont "helvetica" "" 10).setXY 10 60
      let pdf := pdf.multiCell 55 6
        (fmtOpt details.email ++ "\n" ++ fmtOpt details.phone ++ "\n" ++ fmtOpt details.address)
      let pdf := (pdf.setXY 85 15).multiCell 110 5 content
      pdf
  pdf.ops

/-- Second definition of `generate_pdf` (source lines 155-193), which
rebinds the name at import time.  Identical to the first except that the
Template-1 branch does not call `set_text_color(0, 0, 0)` before drawing
the name cell. -/
def generate_pdf_v2 (template color_name : String) (details : Details) (content : String) : List DrawOp :=
  let rgb := resolveColor color_name
  let r := rgb.1
  let g := rgb.2.1
  let b := rgb.2.2
  let pdf := Pdf.init
  let pdf := pdf.addPage
  let pdf := pdf.setAutoPageBreak false
  let name := details.name.getD "Name"
  let pdf :=
    if strContains template "Template 1" then
      let pdf := pdf.setFillColor r g b
      let pdf := pdf.rect 10 0 60 15 "F"
      let pdf := (pdf.setXY 10 20).setFont "helvetica" "B" 26
      let pdf := pdf.cell 60 15 (pyUpper name) 1 ""
      let pdf := pdf.rect 10 38 60 259 "F"
      let pdf := (pdf.setXY 15 45).setTextColor 255 255 255
      let pdf := (pdf.setFont "helvetica" "B" 12).cell 50 8 "Personal details" 1 ""
      let pdf := pdf.line 15 53 65 53
      let pdf := pdf.setFont "helvetica" "" 9
      let pdf := (pdf.setXY 15 60).multiCell 45 5
        ("Email:\n" ++ fmtOpt details.email ++ "\n\nPhone:\n" ++ fmtOpt details.phone
          ++ "\n\nAddress:\n" ++ fmtOpt details.address)
      let pdf := ((pdf.setXY 80 40).setTextColor 0 0 0).multiCell 115 5 content
      pdf
    else
      let pdf := (pdf.setFillColor 242 242 242).rect 0 0 75 297 "F"
      let pdf := (pdf.setFillColor r g b).rect 0 0 75 25 "F"
      let pdf := pdf.ellipse (-10) 10 95 30 "F"
      let pdf := (((pdf.setXY 5 12).setFont "helvetica" "B" 18).setTextColor 255 255 255).cell 65 10 name 0 "C"
      let pdf := (((pdf.setXY 10 50).setTextColor r g b).setFont "helvetica" "B" 14).cell 55 8 "Contact Info" 1 ""
      let pdf := ((pdf.setTextColor 0 0 0).setFont "helvetica" "" 10).setXY 10 60
      let pdf := pdf.multiCell 55 6
        (fmtOpt details.email ++ "\n" ++ fmtOpt details.phone ++ "\n" ++ fmtOpt details.address)
      let pdf := (pdf.setXY 85 15).multiCell 110 5 content
      pdf
  pdf.ops

/-- The two layout routines present in the source: the Template-1 branch
(bold sidebar) and the `else` branch (minimal sidebar, the default). -/
inductive Layout where
  | boldSidebar : Layout
  | minimalSidebar : Layout
deriving DecidableEq

/-- The template dispatcher: the inline `if "Template 1" in template`
test of the source (lines 45 and 168), extracted as a function. -/
def dispatch (template : String) : Layout :=
  if strContains template "Template 1" then Layout.boldSidebar else Layout.minimalSidebar

/-- The text carried by an operation, when it carries one. -/
def opText : DrawOp → Option String
  | DrawOp.cell _ _ _ _ txt _ _ _ _ => some txt
  | DrawOp.multiCell _ _ _ _ txt _ _ => some txt
  | _ => none

/-- All text fragments of a document trace, in drawing order. -/
def docTexts (doc : List DrawOp) : List String :=
  doc.filterMap opText

def isAddPage : DrawOp → Bool
  | DrawOp.addPage => true
  | _ => false

def isAutoBreakOp : DrawOp → Bool
  | DrawOp.setAutoPageBreak _ => true
  | _ => false

/-- Number of pages of a document trace: one per `add_page` call. -/
def numPages (doc : List DrawOp) : Nat :=
  doc.countP isAddPage

/-- Name as each branch displays it: the Template-1 branch uppercases,
the default branch renders it verbatim; "Name" is the fallback when the
`name` key is absent. -/
def nameDisplay (template : String) (details : Details) : String :=
  if strContains template "Template 1" then pyUpper (details.name.getD "Name")
  else details.name.getD "Name"

/-- The fixed label of the contact block of each branch. -/
def blockLabel (template : String) : String :=
  if strContains template "Template 1" then "Personal details" else "Contact Info"

/-- Contact f-string of the Template-1 branch (source lines 55 and 180). -/
def contactBlock1 (details : Details) : String :=
  "Email:\n" ++ fmtOpt details.email ++ "\n\nPhone:\n" ++ fmtOpt details.phone
    ++ "\n\nAddress:\n" ++ fmtOpt details.address

/-- Contact f-string of the default branch (source lines 64 and 190). -/
def contactBlock2 (details : Details) : String :=
  fmtOpt details.email ++ "\n" ++ fmtOpt details.phone ++ "\n" ++ fmtOpt details.address

/-- The contact block the selected branch draws. -/
def contactBlockOf (template : String) (details : Details) : String :=
  if strContains template "Template 1" then contactBlock1 details else contactBlock2 details

/-- The final operation of every render: the body text drawn verbatim.
Neither branch consults the colour theme here (text colour is black). -/
def bodyOpOf (template : String) (content : String) : DrawOp :=
  if strContains template "Template 1" then
    DrawOp.multiCell 80 40 115 5 content { family := "helvetica", style := "", size := 9 } (PdfColor.gray 0)
  else
    DrawOp.multiCell 85 15 110 5 content { family := "helvetica", style := "", size := 10 } (PdfColor.gray 0)

/-- Everything the render draws before the body text; independent of the
`content` argument. -/
def headerOps (template color_name : String) (details : Details) : List DrawOp :=
  (generate_pdf template color_name details "").dropLast

/-- A calendar date, standing for the ambient `datetime.now()`. -/
structure PyDate where
  year : Nat
  month : Nat
  day : Nat
deriving DecidableEq

/-- Full English month names, as `%B` produces them. -/
def monthNames : List String :=
  ["January", "February", "March", "April", "May", "June",
   "July", "August", "September", "October", "November", "December"]

/-- `%d`: day of month zero-padded to two digits. -/
def pad2 (n : Nat) : String :=
  if n < 10 then "0" ++ Nat.repr n else Nat.repr n

/-- `datetime.now().strftime("%B %d, %Y")` at an explicit date: full month
name, zero-padded two-digit day, then the year's decimal digits. -/
def strftimeBdY (today : PyDate) : String :=
  monthNames.getD (today.month - 1) "" ++ " " ++ pad2 today.day ++ ", " ++ Nat.repr today.year

/-- The caller-side assembly of the letter text (source line 107): the
only place a date stamp enters a render. -/
def full_letter (comp : String) (today : PyDate) (llmResponse : String) : String :=
  "Hiring Manager\n" ++ comp ++ "\n\n" ++ strftimeBdY today ++ "\n\n" ++ llmResponse

/-- The sample profile of the specification's end-to-end scenario. -/
def janeDetails : Details :=
  { name := some "Jane Fitz", email := some "jane@example.com",
    phone := some "+12223456789", address := some "Scranton, PA", linkedin := none }

/-- The same profile with a LinkedIn URL supplied. -/
def janeWithLinkedIn : Details :=
  { janeDetails with linkedin := some "https://www.linkedin.com/in/jane" }

/-- A body text containing typographic punctuation: right single quote
(U+2019), curly double quotes (U+201C/U+201D), em dash (U+2014) and the
ellipsis character (U+2026). -/
def smartBody : String := "I’m a “great” fit — truly…"

/-- A details record with every key absent. -/
def emptyDetails : Details :=
  { name := none, email := none, phone := none, address := none, linkedin := none }

/-- A sample render date. -/
def day1ex : PyDate := { year := 2025, month := 3, day := 5 }

/-- The following day. -/
def day2ex : PyDate := { year := 2025, month := 3, day := 6 }

/-- Every render, whichever branch is taken, issues exactly nine
operations; in particular the renderer is total. -/
theorem generate_pdf_length (t c ct : String) (d : Details) :
    (generate_pdf t c d ct).length = 9 := by
  cases h : strContains t "Template 1" <;>
    simp [generate_pdf, h, Pdf.init, Pdf.addPage, Pdf.setAutoPageBreak, Pdf.setFillColor,
      Pdf.setTextColor, Pdf.setFont, Pdf.setXY, Pdf.rect, Pdf.ellipse, Pdf.line, Pdf.cell,
      Pdf.multiCell]

/-- The text fragments a render draws, in order: the displayed name, the
fixed contact-block label, the contact block, then the body verbatim. -/
theorem gen_texts (t c ct : String) (d : Details) :
    docTexts (generate_pdf t c d ct)
      = [nameDisplay t d, blockLabel t, contactBlockOf t d, ct] := by
  cases h : strContains t "Template 1" <;>
    simp [generate_pdf, docTexts, opText, nameDisplay, blockLabel, contactBlockOf,
      contactBlock1, contactBlock2, h, Pdf.init, Pdf.addPage, Pdf.setAutoPageBreak,
      Pdf.setFillColor, Pdf.setTextColor, Pdf.setFont, Pdf.setXY, Pdf.rect, Pdf.ellipse,
      Pdf.line, Pdf.cell, Pdf.multiCell]

/-- Every render is its content-independent header followed by one final
body operation carrying the content verbatim. -/
theorem gen_split (t c ct : String) (d : Details) :
    generate_pdf t c d ct = headerOps t c d ++ [bodyOpOf t ct] := by
  cases h : strContains t "Template 1" <;>
    simp [generate_pdf, headerOps, bodyOpOf, h, Pdf.init, Pdf.addPage, Pdf.setAutoPageBreak,
      Pdf.setFillColor, Pdf.setTextColor, Pdf.setFont, Pdf.setXY, Pdf.rect, Pdf.ellipse,
      Pdf.line, Pdf.cell, Pdf.multiCell]

/-- C1: the renderer is deterministic — identical inputs give identical
traces — and across renders of the same request assembled by `full_letter`
on two different days, everything except the date stamp inside the final
body operation is the same: the header operations are day-independent, and
the stamp is formatted as full month name, zero-padded two-digit day, and
the year in decimal. -/
theorem c1_renderer_deterministic_date_confined
    (t c comp llm t2 c2 ct ct2 : String) (d d2 : Details) (day1 day2 : PyDate)
    (ht : t = t2) (hc : c = c2) (hd : d = d2) (hct : ct = ct2) :
    generate_pdf t c d ct = generate_pdf t2 c2 d2 ct2
    ∧ generate_pdf t c d (full_letter comp day1 llm)
        = headerOps t c d
            ++ [bodyOpOf t ("Hiring Manager\n" ++ comp ++ "\n\n" ++ strftimeBdY day1 ++ "\n\n" ++ llm)]
    ∧ generate_pdf t c d (full_letter comp day2 llm)
        = headerOps t c d
            ++ [bodyOpOf t ("Hiring Manager\n" ++ comp ++ "\n\n" ++ strftimeBdY day2 ++ "\n\n" ++ llm)]
    ∧ strftimeBdY day1
        = monthNames.getD (day1.month - 1) "" ++ " " ++ pad2 day1.day ++ ", " ++ Nat.repr day1.year := by
  subst ht hc hd hct
  exact ⟨rfl, gen_split t c (full_letter comp day1 llm) d,
    gen_split t c (full_letter comp day2 llm) d, rfl⟩

/-- C1 witness at the sample inputs and the dates March 05/06, 2025. -/
theorem c1_witness :
    generate_pdf "Template 1 - Sidebar Bold" "Teal" janeDetails "Body"
      = generate_pdf "Template 1 - Sidebar Bold" "Teal" janeDetails "Body"
    ∧ generate_pdf "Template 1 - Sidebar Bold" "Teal" janeDetails
        (full_letter "Dunder Mifflin" day1ex "Letter text")
        = headerOps "Template 1 - Sidebar Bold" "Teal" janeDetails
            ++ [bodyOpOf "Template 1 - Sidebar Bold"
                ("Hiring Manager\n" ++ "Dunder Mifflin" ++ "\n\n" ++ strftimeBdY day1ex ++ "\n\n" ++ "Letter text")]
    ∧ generate_pdf "Template 1 - Sidebar Bold" "Teal" janeDetails
        (full_letter "Dunder Mifflin" day2ex "Letter text")
        = headerOps "Template 1 - Sidebar Bold" "Teal" janeDetails
            ++ [bodyOpOf "Template 1 - Sidebar Bold"
                ("Hiring Manager\n" ++ "Dunder Mifflin" ++ "\n\n" ++ strftimeBdY day2ex ++ "\n\n" ++ "Letter text")]
    ∧ strftimeBdY day1ex
        = monthNames.getD (day1ex.month - 1) "" ++ " " ++ pad2 day1ex.day ++ ", " ++ Nat.repr day1ex.year :=
  c1_renderer_deterministic_date_confined _ _ _ _ _ _ _ _ _ _ _ _ rfl rfl rfl rfl

/-- C2: the colour resolver maps each of the five documented theme names
to its documented RGB triple; any name outside the table (the empty string
included) resolves to the Teal default (52, 165, 173); and no theme name
prevents a full nine-operation document from being produced. -/
theorem c2_color_resolver_total (nm t ct : String) (d : Details)
    (hnm : colors nm = none) :
    resolveColor "Teal" = (52, 165, 173)
    ∧ resolveColor "Forest Green" = (34, 139, 34)
    ∧ resolveColor "Navy Blue" = (0, 51, 102)
    ∧ resolveColor "Burgundy" = (128, 0, 32)
    ∧ resolveColor "Charcoal" = (54, 69, 79)
    ∧ resolveColor nm = (52, 165, 173)
    ∧ resolveColor "" = (52, 165, 173)
    ∧ (∀ anyName : String, (generate_pdf t anyName d ct).length = 9) := by
  refine ⟨rfl, rfl, rfl, rfl, rfl, ?_, rfl, fun anyName => generate_pdf_length t anyName ct d⟩
  simp [resolveColor, hnm]

/-- C2 witness: "Magenta" is outside the table and resolves to Teal. -/
theorem c2_witness :
    colors "Magenta" = none
    ∧ (resolveColor "Teal" = (52, 165, 173)
      ∧ resolveColor "Forest Green" = (34, 139, 34)
      ∧ resolveColor "Navy Blue" = (0, 51, 102)
      ∧ resolveColor "Burgundy" = (128, 0, 32)
      ∧ resolveColor "Charcoal" = (54, 69, 79)
      ∧ resolveColor "Magenta" = (52, 165, 173)
      ∧ resolveColor "" = (52, 165, 173)
      ∧ (∀ anyName : String, (generate_pdf "Traditional" anyName janeDetails "Body").length = 9)) :=
  ⟨rfl, c2_color_resolver_total "Magenta" "Traditional" "Body" janeDetails rfl⟩

/-- C3: template dispatch is by substring matching — a label containing
"Template 1" selects the bold-sidebar layout, and every non-matching label
(the empty string and "Traditional" included, there being no other defined
substring in this revision) selects the default minimal-sidebar layout,
with a full document produced either way. -/
theorem c3_dispatch_substring (t c ct : String) (d : Details) :
    (dispatch t = Layout.boldSidebar ↔ strContains t "Template 1" = true)
    ∧ docTexts (generate_pdf t c d ct)
        = (if strContains t "Template 1" then
             [pyUpper (d.name.getD "Name"), "Personal details", contactBlock1 d, ct]
           else
             [d.name.getD "Name", "Contact Info", contactBlock2 d, ct])
    ∧ dispatch "" = Layout.minimalSidebar
    ∧ dispatch "Traditional" = Layout.minimalSidebar
    ∧ (generate_pdf t c d ct).length = 9 := by
  refine ⟨?_, ?_, rfl, rfl, generate_pdf_length t c ct d⟩
  · cases h : strContains t "Template 1" <;> simp [dispatch, h]
  · have hh := gen_texts t c ct d
    cases h : strContains t "Template 1" <;>
      simp only [nameDisplay, blockLabel, contactBlockOf, h, if_true, if_false] at hh <;>
      simp [h, hh]

/-- C4: contrary to the claim, no sanitizer runs: at a body containing the
right single quote (U+2019), curly quotes, em dash (U+2014) and ellipsis
(U+2026), the layout consumes the body verbatim, typographic characters
intact — the claimed mapping to ASCII never happens. -/
theorem c4_body_reaches_layout_unsanitized :
    docTexts (generate_pdf "Template 2 - Sidebar Minimal" "Teal" janeDetails smartBody)
      = ["Jane Fitz", "Contact Info",
         "jane@example.com\n+12223456789\nScranton, PA", smartBody]
    ∧ Char.ofNat 8217 ∈ smartBody.data
    ∧ Char.ofNat 8212 ∈ smartBody.data
    ∧ Char.ofNat 8230 ∈ smartBody.data :=
  ⟨rfl, by decide, by decide, by decide⟩

/-- C5: a details record with missing fields never breaks the render —
every record yields the full nine-operation document; an absent `name` is
replaced by the fallback "Name" (uppercased in the bold-sidebar branch)
while absent email/phone/address render as "None", never as "Name" and
never as empty rows; and no LinkedIn label exists in any branch. -/
theorem c5_missing_fields_tolerated (t c ct : String) (d : Details)
    (hname : d.name = none) :
    (∀ d2 : Details, (generate_pdf t c d2 ct).length = 9)
    ∧ docTexts (generate_pdf t c d ct)
        = (if strContains t "Template 1" then
             ["NAME", "Personal details", contactBlock1 d, ct]
           else
             ["Name", "Contact Info", contactBlock2 d, ct])
    ∧ contactBlock1 emptyDetails = "Email:\nNone\n\nPhone:\nNone\n\nAddress:\nNone"
    ∧ contactBlock2 emptyDetails = "None\nNone\nNone"
    ∧ blockLabel t ≠ "LinkedIn" := by
  refine ⟨fun d2 => generate_pdf_length t c ct d2, ?_, rfl, rfl, ?_⟩
  · have hh := gen_texts t c ct d
    cases h : strContains t "Template 1"
    · simp only [nameDisplay, blockLabel, contactBlockOf, h, if_true, if_false] at hh
      simp [h, hh, hname]
    · simp only [nameDisplay, blockLabel, contactBlockOf, h, if_true, if_false] at hh
      simp [h, hh, hname]
      rfl
  · cases h : strContains t "Template 1" <;> simp [blockLabel, h]

/-- C5 witness at the record with every field absent. -/
theorem c5_witness :
    (∀ d2 : Details, (generate_pdf "Template 1 - Sidebar Bold" "Teal" d2 "Body").length = 9)
    ∧ docTexts (generate_pdf "Template 1 - Sidebar Bold" "Teal" emptyDetails "Body")
        = (if strContains "Template 1 - Sidebar Bold" "Template 1" then
             ["NAME", "Personal details", contactBlock1 emptyDetails, "Body"]
           else
             ["Name", "Contact Info", contactBlock2 emptyDetails, "Body"])
    ∧ contactBlock1 emptyDetails = "Email:\nNone\n\nPhone:\nNone\n\nAddress:\nNone"
    ∧ contactBlock2 emptyDetails = "None\nNone\nNone"
    ∧ blockLabel "Template 1 - Sidebar Bold" ≠ "LinkedIn" :=
  c5_missing_fields_tolerated "Template 1 - Sidebar Bold" "Teal" "Body" emptyDetails rfl

/-- C6 counterexample: with `linkedin` set to a URL, no drawn text
contains that URL — there is no LinkedIn row at all, where the claim
requires exactly one. -/
theorem c6_counterexample_no_linkedin_row :
    ((docTexts (generate_pdf "Template 2 - Sidebar Minimal" "Teal" janeWithLinkedIn "Body")).filter
        (fun s => strContains s "linkedin.com/in/jane")).length = 0 := by
  rfl

/-- C6 (amended): the renderer ignores the `linkedin` field entirely —
the trace is unchanged under any substitution of that field — and the
drawn texts are exactly name, fixed block label (never "LinkedIn"),
contact block and body. -/
theorem c6_amended_linkedin_ignored (t c ct : String) (d : Details) (l1 l2 : Option String) :
    generate_pdf t c { d with linkedin := l1 } ct = generate_pdf t c { d with linkedin := l2 } ct
    ∧ docTexts (generate_pdf t c d ct) = [nameDisplay t d, blockLabel t, contactBlockOf t d, ct]
    ∧ blockLabel t ≠ "LinkedIn" := by
  refine ⟨?_, gen_texts t c ct d, ?_⟩
  · cases h : strContains t "Template 1" <;>
      simp [generate_pdf, h, Pdf.init, Pdf.addPage, Pdf.setAutoPageBreak,
        Pdf.setFillColor, Pdf.setTextColor, Pdf.setFont, Pdf.setXY, Pdf.rect, Pdf.ellipse,
        Pdf.line, Pdf.cell, Pdf.multiCell]
  · cases h : strContains t "Template 1" <;> simp [blockLabel, h]

/-- C7 counterexample: a render whose body does not mention
"Attachment: Resume" contains no drawn text containing it, where the claim
requires one unconditionally. -/
theorem c7_counterexample_no_attachment_line :
    ((docTexts (generate_pdf "Traditional" "Navy Blue" janeDetails
        "Dear Hiring Manager, I am excited to apply.")).filter
      (fun s => strContains s "Attachment: Resume")).length = 0 := by
  rfl

/-- C7 (amended): the renderer itself never emits an "Attachment: Resume"
line — the content flow ends with the body text verbatim as the last
operation, and neither fixed label contains the string; it appears in the
output only if the caller puts it into an input. -/
theorem c7_amended_no_attachment_appended (t c ct : String) (d : Details) :
    docTexts (generate_pdf t c d ct) = [nameDisplay t d, blockLabel t, contactBlockOf t d, ct]
    ∧ (generate_pdf t c d ct).getLast? = some (bodyOpOf t ct)
    ∧ strContains "Personal details" "Attachment: Resume" = false
    ∧ strContains "Contact Info" "Attachment: Resume" = false := by
  refine ⟨gen_texts t c ct d, ?_, rfl, rfl⟩
  rw [gen_split t c ct d]
  simp

/-- C8: every render is a single fixed page — exactly one `add_page`
operation, the trace begins with the page creation immediately followed by
disabling the automatic page break, and no later operation adds a page or
touches the page-break setting in either branch. -/
theorem c8_single_page_no_pagination (t c ct : String) (d : Details) :
    numPages (generate_pdf t c d ct) = 1
    ∧ (generate_pdf t c d ct).take 2 = [DrawOp.addPage, DrawOp.setAutoPageBreak false]
    ∧ (generate_pdf t c d ct).countP isAutoBreakOp = 1 := by
  cases h : strContains t "Template 1" <;>
    simp only [generate_pdf, h] <;>
    exact ⟨rfl, rfl, rfl⟩

/-- C9: the first drawn text is the name: uppercased when the template
label contains "Template 1" (bold sidebar), verbatim otherwise. -/
theorem c9_name_casing (t c ct n : String) (d : Details) (hn : d.name = some n) :
    (docTexts (generate_pdf t c d ct)).head?
      = some (if strContains t "Template 1" then pyUpper n else n) := by
  rw [gen_texts t c ct d]
  cases h : strContains t "Template 1" <;> simp [nameDisplay, h, hn]

/-- C9 witness: the bold-sidebar template draws "Jane Fitz" uppercased. -/
theorem c9_witness :
    (docTexts (generate_pdf "Template 1 - Sidebar Bold" "Teal" janeDetails "Body")).head?
      = some (if strContains "Template 1 - Sidebar Bold" "Template 1" then
          pyUpper "Jane Fitz" else "Jane Fitz") :=
  c9_name_casing "Template 1 - Sidebar Bold" "Teal" "Body" "Jane Fitz" janeDetails rfl

/-- C10: the two source definitions of `generate_pdf` are extensionally
equal — they produce identical traces on every input; the only textual
difference, the first definition re-setting the text colour to black
before the Template-1 name cell, re-installs the colour already in effect
and changes nothing observable. -/
theorem c10_redefinitions_extensionally_equal (t c ct : String) (d : Details) :
    generate_pdf t c d ct = generate_pdf_v2 t c d ct := by
  cases h : strContains t "Template 1" <;>
    simp [generate_pdf, generate_pdf_v2, h, Pdf.init, Pdf.addPage, Pdf.setAutoPageBreak,
      Pdf.setFillColor, Pdf.setTextColor, Pdf.setFont, Pdf.setXY, Pdf.rect, Pdf.ellipse,
      Pdf.line, Pdf.cell, Pdf.multiCell]
